import Mathlib

/-!
Verification of the Rockfall_prediction core pipeline against its
natural-language specification.

The Python source is shallowly embedded: numeric values are modelled as
rationals (the Python code computes over IEEE doubles; all constants and
thresholds in the embedded fragments are short decimal literals, which the
rational embedding represents exactly), pandas missing values (NaN cells)
are modelled as `Option`, and Python exceptions are modelled with `Except`.
Each definition mirrors one function of the repository, named after it.
-/

/-! ## `classify_risk` (src/backend/services/predict.py)

The Python function iterates over the `RISK_THRESHOLDS` dict in insertion
order (LOW, MEDIUM, HIGH), returning the first band with
`low <= probability < high`; if no band matched it returns HIGH when
`probability >= 0.66` and LOW otherwise. -/

inductive RiskClass where
  | LOW
  | MEDIUM
  | HIGH
  deriving DecidableEq, Repr

def classify_risk (p : ℚ) : RiskClass :=
  if 0 ≤ p ∧ p < 33/100 then RiskClass.LOW
  else if 33/100 ≤ p ∧ p < 66/100 then RiskClass.MEDIUM
  else if 66/100 ≤ p ∧ p < 1 then RiskClass.HIGH
  else if 66/100 ≤ p then RiskClass.HIGH
  else RiskClass.LOW

/-! ## `create_risk_labels` (src/ml/features.py)

One engineered feature row carries the columns the labeler reads.  The
Python function guards each contribution by column presence; the engineered
table produced by the repository's own pipeline always carries all of these
columns, and the embedding models a row of that table. -/

structure FeatureRow where
  rainfall_mm : ℚ
  rainfall_cumsum_24h : ℚ
  vibrations : ℚ
  displacement : ℚ
  strain : ℚ
  pore_pressure : ℚ
  temperature_c : ℚ
  deriving DecidableEq, Repr

/-- Source `rain_risk`, first term: `np.where(rainfall_mm > 20, 0.3, 0.0)`. -/
def rainRisk1 (r : FeatureRow) : ℚ := if r.rainfall_mm > 20 then 3/10 else 0

/-- Source `rain_risk`, second term: `np.where(rainfall_mm > 50, 0.2, 0.0)`. -/
def rainRisk2 (r : FeatureRow) : ℚ := if r.rainfall_mm > 50 then 2/10 else 0

/-- Source `cum_rain_risk`: `np.where(rainfall_cumsum_24h > 100, 0.2, 0.0)`. -/
def cumRainRisk (r : FeatureRow) : ℚ := if r.rainfall_cumsum_24h > 100 then 2/10 else 0

/-- Source `vib_risk`, first term: `np.where(vibrations > 0.6, 0.25, 0.0)`. -/
def vibRisk1 (r : FeatureRow) : ℚ := if r.vibrations > 6/10 then 25/100 else 0

/-- Source `vib_risk`, second term: `np.where(vibrations > 1.0, 0.15, 0.0)`. -/
def vibRisk2 (r : FeatureRow) : ℚ := if r.vibrations > 1 then 15/100 else 0

/-- Source `disp_risk`, first term: `np.where(displacement > 5, 0.3, 0.0)`. -/
def dispRisk1 (r : FeatureRow) : ℚ := if r.displacement > 5 then 3/10 else 0

/-- Source `disp_risk`, second term: `np.where(displacement > 10, 0.2, 0.0)`. -/
def dispRisk2 (r : FeatureRow) : ℚ := if r.displacement > 10 then 2/10 else 0

/-- Source `strain_risk`: `np.where(strain > 1.0, 0.15, 0.0)`. -/
def strainRisk (r : FeatureRow) : ℚ := if r.strain > 1 then 15/100 else 0

/-- Source `pressure_risk`: `np.where(pore_pressure > 2.0, 0.1, 0.0)`. -/
def pressureRisk (r : FeatureRow) : ℚ := if r.pore_pressure > 2 then 1/10 else 0

/-- Source `combined_risk`: rainfall and vibration both past their first thresholds. -/
def combinedRisk (r : FeatureRow) : ℚ :=
  if r.rainfall_mm > 20 ∧ r.vibrations > 6/10 then 2/10 else 0

/-- Source `geo_risk`: displacement and strain both past their first thresholds. -/
def geoRisk (r : FeatureRow) : ℚ :=
  if r.displacement > 5 ∧ r.strain > 1 then 15/100 else 0

/-- Source `temp_risk`, first term: freeze-thaw, `np.where(temperature_c < 0, 0.05, 0.0)`. -/
def tempRisk1 (r : FeatureRow) : ℚ := if r.temperature_c < 0 then 5/100 else 0

/-- Source `temp_risk`, second term: thermal expansion, `np.where(temperature_c > 40, 0.05, 0.0)`. -/
def tempRisk2 (r : FeatureRow) : ℚ := if r.temperature_c > 40 then 5/100 else 0

/-- The unclamped composite score, summed in the source's order:
rain, cumulative rain, vibration, displacement, strain, pore pressure,
the two compound terms, then temperature extremes. -/
def risk_score_raw (r : FeatureRow) : ℚ :=
  (rainRisk1 r + rainRisk2 r)
    + cumRainRisk r
    + (vibRisk1 r + vibRisk2 r)
    + (dispRisk1 r + dispRisk2 r)
    + strainRisk r
    + pressureRisk r
    + combinedRisk r
    + geoRisk r
    + (tempRisk1 r + tempRisk2 r)

/-- Numpy clipping `np.clip(x, 0, 1)`. -/
def clip01 (x : ℚ) : ℚ := min 1 (max 0 x)

/-- The `risk_probability` column: the composite score clamped to [0,1]. -/
def risk_score (r : FeatureRow) : ℚ := clip01 (risk_score_raw r)

/-- The `risk` column: binary label, true when the clamped score exceeds 0.5. -/
def is_high_risk (r : FeatureRow) : Bool := risk_score r > 1/2

/-- The thirteen additive contributions of the documented scoring table,
as a list so permutations of the summation order can be stated. -/
def riskContributions (r : FeatureRow) : List ℚ :=
  [ rainRisk1 r, rainRisk2 r, cumRainRisk r, vibRisk1 r, vibRisk2 r
  , dispRisk1 r, dispRisk2 r, strainRisk r, pressureRisk r
  , combinedRisk r, geoRisk r, tempRisk1 r, tempRisk2 r ]

/-- C1: the composite risk score is the clamp of the sum of the documented
additive contributions, the clamp is applied once at the end, the label is
`score > 0.5`, and any permutation of the contributions sums to the same
clamped score and label. -/
theorem C1_risk_score_additive_order_invariant (r : FeatureRow) (l : List ℚ)
    (h : l.Perm (riskContributions r)) :
    risk_score_raw r = (riskContributions r).sum ∧
    risk_score r = clip01 l.sum ∧
    is_high_risk r = decide (clip01 l.sum > 1/2) := by
  have hsum : l.sum = (riskContributions r).sum := h.sum_eq
  have hraw : risk_score_raw r = (riskContributions r).sum := by
    simp only [risk_score_raw, riskContributions, List.sum_cons, List.sum_nil]
    ring
  refine ⟨hraw, ?_, ?_⟩
  · simp [risk_score, hsum, hraw]
  · simp [is_high_risk, risk_score, hsum, hraw]

/-- Witness for C1 at a concrete row and a nontrivial permutation. -/
theorem C1_risk_score_additive_order_invariant_witness :
    risk_score_raw ⟨25, 0, 7/10, 0, 0, 0, 20⟩
        = (riskContributions ⟨25, 0, 7/10, 0, 0, 0, 20⟩).sum ∧
    risk_score ⟨25, 0, 7/10, 0, 0, 0, 20⟩
        = clip01 ((riskContributions ⟨25, 0, 7/10, 0, 0, 0, 20⟩).reverse.sum) ∧
    is_high_risk ⟨25, 0, 7/10, 0, 0, 0, 20⟩
        = decide (clip01 ((riskContributions ⟨25, 0, 7/10, 0, 0, 0, 20⟩).reverse.sum) > 1/2) :=
  C1_risk_score_additive_order_invariant ⟨25, 0, 7/10, 0, 0, 0, 20⟩
    (riskContributions ⟨25, 0, 7/10, 0, 0, 0, 20⟩).reverse
    (List.reverse_perm _)

theorem clip01_nonneg (x : ℚ) : 0 ≤ clip01 x :=
  le_min (by norm_num) (le_max_left 0 x)

theorem clip01_le_one (x : ℚ) : clip01 x ≤ 1 :=
  min_le_left 1 (max 0 x)

/-- C7: the two documented scenarios of the labeler (rainfall 25 with calm
vibration/displacement scores exactly 0.30 and is not high risk; rainfall 55
with vibration 0.7 scores exactly 0.95 and is high risk), plus the label
invariant `is_high_risk = (risk_score > 0.5)` with the score clamped to
[0,1].  Each scenario leaves the unmentioned signals below their
thresholds. -/
theorem C7_label_scenarios_and_invariant :
    (∀ r : FeatureRow, r.rainfall_mm = 25 → r.vibrations = 0 → r.displacement = 0 →
      r.rainfall_cumsum_24h ≤ 100 → r.strain ≤ 1 → r.pore_pressure ≤ 2 →
      0 ≤ r.temperature_c → r.temperature_c ≤ 40 →
      risk_score r = 3/10 ∧ is_high_risk r = false) ∧
    (∀ r : FeatureRow, r.rainfall_mm = 55 → r.vibrations = 7/10 → r.displacement = 0 →
      r.rainfall_cumsum_24h ≤ 100 → r.strain ≤ 1 → r.pore_pressure ≤ 2 →
      0 ≤ r.temperature_c → r.temperature_c ≤ 40 →
      risk_score r = 19/20 ∧ is_high_risk r = true) ∧
    (∀ r : FeatureRow, is_high_risk r = decide (risk_score r > 1/2) ∧
      0 ≤ risk_score r ∧ risk_score r ≤ 1) := by
  refine ⟨?_, ?_, ?_⟩
  · rintro ⟨rain, cum, vib, disp, str, pore, temp⟩ h1 h2 h3 h4 h5 h6 h7 h8
    simp only at h1 h2 h3 h4 h5 h6 h7 h8
    subst h1; subst h2; subst h3
    have c1 : ¬ (cum > 100) := not_lt.mpr h4
    have c2 : ¬ (str > 1) := not_lt.mpr h5
    have c3 : ¬ (pore > 2) := not_lt.mpr h6
    have c4 : ¬ (temp < 0) := not_lt.mpr h7
    have c5 : ¬ (temp > 40) := not_lt.mpr h8
    norm_num [risk_score, risk_score_raw, rainRisk1, rainRisk2, cumRainRisk,
      vibRisk1, vibRisk2, dispRisk1, dispRisk2, strainRisk, pressureRisk,
      combinedRisk, geoRisk, tempRisk1, tempRisk2, clip01, is_high_risk,
      c1, c2, c3, c4, c5]
  · rintro ⟨rain, cum, vib, disp, str, pore, temp⟩ h1 h2 h3 h4 h5 h6 h7 h8
    simp only at h1 h2 h3 h4 h5 h6 h7 h8
    subst h1; subst h2; subst h3
    have c1 : ¬ (cum > 100) := not_lt.mpr h4
    have c2 : ¬ (str > 1) := not_lt.mpr h5
    have c3 : ¬ (pore > 2) := not_lt.mpr h6
    have c4 : ¬ (temp < 0) := not_lt.mpr h7
    have c5 : ¬ (temp > 40) := not_lt.mpr h8
    norm_num [risk_score, risk_score_raw, rainRisk1, rainRisk2, cumRainRisk,
      vibRisk1, vibRisk2, dispRisk1, dispRisk2, strainRisk, pressureRisk,
      combinedRisk, geoRisk, tempRisk1, tempRisk2, clip01, is_high_risk,
      c1, c2, c3, c4, c5]
  · intro r
    exact ⟨rfl, clip01_nonneg _, clip01_le_one _⟩

/-- Witness for C7: both scenarios at concrete rows. -/
theorem C7_label_scenarios_and_invariant_witness :
    (risk_score ⟨25, 25, 0, 0, 0, 0, 20⟩ = 3/10 ∧
      is_high_risk ⟨25, 25, 0, 0, 0, 0, 20⟩ = false) ∧
    (risk_score ⟨55, 55, 7/10, 0, 0, 0, 20⟩ = 19/20 ∧
      is_high_risk ⟨55, 55, 7/10, 0, 0, 0, 20⟩ = true) :=
  ⟨C7_label_scenarios_and_invariant.1 ⟨25, 25, 0, 0, 0, 0, 20⟩
      rfl rfl rfl (by norm_num) (by norm_num) (by norm_num) (by norm_num) (by norm_num),
   C7_label_scenarios_and_invariant.2.1 ⟨55, 55, 7/10, 0, 0, 0, 20⟩
      rfl rfl rfl (by norm_num) (by norm_num) (by norm_num) (by norm_num) (by norm_num)⟩

/-- C2 counterexample: a probability of exactly 0.66 is classified HIGH by
`classify_risk` (the HIGH band's lower bound is inclusive), not MEDIUM as
the claim states. -/
theorem C2_boundary_counterexample :
    classify_risk (66/100) = RiskClass.HIGH ∧ RiskClass.HIGH ≠ RiskClass.MEDIUM := by
  constructor
  · norm_num [classify_risk]
  · decide

/-- C2 amended: the bands are the half-open intervals LOW=[0,0.33),
MEDIUM=[0.33,0.66), HIGH=[0.66,1.0]; 0 is LOW, 0.33 is MEDIUM, 0.66 is HIGH
(not MEDIUM), and 1 is HIGH; on [0,1] the three bands are exhaustive and
mutually exclusive. -/
theorem C2_bands_amended :
    classify_risk 0 = RiskClass.LOW ∧
    classify_risk (33/100) = RiskClass.MEDIUM ∧
    classify_risk (66/100) = RiskClass.HIGH ∧
    classify_risk 1 = RiskClass.HIGH ∧
    (∀ p : ℚ, 0 ≤ p → p ≤ 1 →
      ((classify_risk p = RiskClass.LOW ↔ p < 33/100) ∧
       (classify_risk p = RiskClass.MEDIUM ↔ 33/100 ≤ p ∧ p < 66/100) ∧
       (classify_risk p = RiskClass.HIGH ↔ 66/100 ≤ p))) := by
  refine ⟨by norm_num [classify_risk], by norm_num [classify_risk],
    by norm_num [classify_risk], by norm_num [classify_risk], ?_⟩
  intro p h0 h1
  unfold classify_risk
  split_ifs with ha hb hc hd
  · exact ⟨iff_of_true rfl ha.2,
      iff_of_false (by decide) (fun h => absurd ha.2 (not_lt.mpr h.1)),
      iff_of_false (by decide) (fun h => by linarith [ha.2])⟩
  · exact ⟨iff_of_false (by decide) (fun h => absurd hb.1 (not_le.mpr h)),
      iff_of_true rfl hb,
      iff_of_false (by decide) (fun h => by linarith [hb.2])⟩
  · exact ⟨iff_of_false (by decide) (fun h => by linarith [hc.1]),
      iff_of_false (by decide) (fun h => by linarith [hc.1, h.2]),
      iff_of_true rfl hc.1⟩
  · exact ⟨iff_of_false (by decide) (fun h => by linarith),
      iff_of_false (by decide) (fun h => by linarith [h.2]),
      iff_of_true rfl hd⟩
  · exfalso
    have h2 : ¬ p < 33/100 := fun hlt => ha ⟨h0, hlt⟩
    have h3 : p < 66/100 := lt_of_not_le hd
    exact hb ⟨le_of_not_lt h2, h3⟩

/-- Witness for C2 amended: 0.5 lies in the MEDIUM band. -/
theorem C2_bands_amended_witness : classify_risk (1/2) = RiskClass.MEDIUM :=
  ((C2_bands_amended.2.2.2.2 (1/2) (by norm_num) (by norm_num)).2.1).mpr
    ⟨by norm_num, by norm_num⟩

/-- C10: `classify_risk` is total over all rationals: it always yields one
of the three classes, any negative input is LOW, and any input at or above
0.66 — including inputs above 1 — is HIGH. -/
theorem C10_classify_risk_total (p : ℚ) :
    (classify_risk p = RiskClass.LOW ∨ classify_risk p = RiskClass.MEDIUM ∨
      classify_risk p = RiskClass.HIGH) ∧
    (p < 0 → classify_risk p = RiskClass.LOW) ∧
    (66/100 ≤ p → classify_risk p = RiskClass.HIGH) := by
  unfold classify_risk
  split_ifs with ha hb hc hd
  · exact ⟨Or.inl rfl, fun h => rfl, fun h => absurd ha.2 (not_lt.mpr (by linarith))⟩
  · exact ⟨Or.inr (Or.inl rfl), fun h => absurd hb.1 (not_le.mpr (by linarith)),
      fun h => absurd hb.2 (not_lt.mpr (by linarith))⟩
  · exact ⟨Or.inr (Or.inr rfl), fun h => absurd hc.1 (not_le.mpr (by linarith)),
      fun h => rfl⟩
  · exact ⟨Or.inr (Or.inr rfl), fun h => absurd hd (not_le.mpr (by linarith)),
      fun h => rfl⟩
  · exact ⟨Or.inl rfl, fun h => rfl, fun h => absurd h hd⟩

/-- Witness for C10: a negative probability and one above 1. -/
theorem C10_classify_risk_total_witness :
    classify_risk (-1) = RiskClass.LOW ∧ classify_risk (3/2) = RiskClass.HIGH :=
  ⟨(C10_classify_risk_total (-1)).2.1 (by norm_num),
   (C10_classify_risk_total (3/2)).2.2 (by norm_num)⟩

/-! ## `prepare_features` (src/backend/services/predict.py)

A raw payload is a mapping from field names to numeric values (a value may
be null, pandas NaN), plus an optional timestamp.  The Python code parses
the timestamp with pandas and reads `.hour`, `.dayofweek`, `.month` from
it; the embedding carries those three calendar components directly.
Python's `'roll' in feature` substring test is embedded as `strContains`. -/

def leadsWith : List Char → List Char → Bool
  | _, [] => true
  | [], _ :: _ => false
  | c :: s, d :: p => c == d && leadsWith s p

def hasSublist : List Char → List Char → Bool
  | [], p => leadsWith [] p
  | c :: s, p => leadsWith (c :: s) p || hasSublist s p

/-- Python's substring containment `pat in s`. -/
def strContains (s pat : String) : Bool := hasSublist s.toList pat.toList

/-- Python's `s.lower()` on the character list of a name. -/
def lowerChars (l : List Char) : List Char := l.map Char.toLower

/-- Substring containment after lowercasing, Python's `pat in s.lower()`. -/
def strContainsLower (s pat : String) : Bool :=
  hasSublist (lowerChars s.toList) pat.toList

/-- The default filled in for a contract feature missing from the payload,
with the source's check order: derived-feature patterns (`roll`, `diff`,
`pct_change`) first, then `temp`, `pressure`, `humidity` on the lowercased
name, and 0 otherwise. -/
def pattern_default (f : String) : ℚ :=
  if strContains f "roll" || strContains f "diff" || strContains f "pct_change" then 0
  else if strContainsLower f "temp" then 20
  else if strContainsLower f "pressure" then 101325/100
  else if strContainsLower f "humidity" then 50
  else 0

structure PayloadTime where
  hour : ℕ
  dayofweek : ℕ
  month : ℕ
  deriving DecidableEq, Repr

structure Payload where
  fields : List (String × Option ℚ)
  timestamp : Option PayloadTime
  deriving DecidableEq, Repr

/-- First-match lookup in an association list (a Python dict / DataFrame
column lookup; payload keys are unique in Python, so first-match agrees). -/
def lookupList {α : Type} : List (String × α) → String → Option α
  | [], _ => none
  | kv :: rest, f => if kv.1 = f then some kv.2 else lookupList rest f

/-- The five calendar columns `prepare_features` assigns when the payload
carries a timestamp; an assignment overwrites a same-named payload column. -/
def tsColumns (t : PayloadTime) : List (String × Option ℚ) :=
  [ ("hour", some (t.hour : ℚ))
  , ("day_of_week", some (t.dayofweek : ℚ))
  , ("month", some (t.month : ℚ))
  , ("is_weekend", some (if t.dayofweek ≥ 5 then (1:ℚ) else 0))
  , ("is_night", some (if t.hour ≥ 22 ∨ t.hour ≤ 6 then (1:ℚ) else 0)) ]

/-- Column lookup on the DataFrame built from the payload, after the
calendar assignments: calendar columns shadow payload fields.  `none`
means the column does not exist; `some none` is an existing null cell. -/
def dfLookup (p : Payload) (f : String) : Option (Option ℚ) :=
  match p.timestamp with
  | some t =>
    match lookupList (tsColumns t) f with
    | some v => some v
    | none => lookupList p.fields f
  | none => lookupList p.fields f

/-- Source `prepare_features`: fill each contract feature missing from the frame
with its pattern default, select exactly the contract's columns in the
contract's order, and `fillna(0)` the remaining null cells. -/
def prepare_features (feature_names : List String) (p : Payload) : List (String × ℚ) :=
  feature_names.map fun f =>
    (f, match dfLookup p f with
        | some v => v.getD 0
        | none => pattern_default f)

/-- C3 counterexample: the engineered feature name `temperature_c_roll3h`
is temperature-like, yet reconciliation fills it with 0, not with the
nominal room temperature 20, because the source checks the derived-feature
patterns (`roll`/`diff`/`pct_change`) before the `temp` pattern. -/
theorem C3_default_pattern_counterexample :
    prepare_features ["temperature_c_roll3h"] ⟨[], none⟩
      = [("temperature_c_roll3h", 0)] ∧ (0 : ℚ) ≠ 20 := by
  constructor
  · decide
  · norm_num

theorem lookupList_filter {α : Type} (l : List (String × α)) (pred : String → Bool)
    (f : String) (hf : pred f = true) :
    lookupList (l.filter fun kv => pred kv.1) f = lookupList l f := by
  induction l with
  | nil => rfl
  | cons kv rest ih =>
    by_cases h : kv.1 = f
    · simp [List.filter_cons, lookupList, h, hf]
    · cases hp : pred kv.1 <;> simp [List.filter_cons, hp, lookupList, h, ih]

theorem dfLookup_filter (fields : List (String × Option ℚ)) (ts : Option PayloadTime)
    (fns : List String) (f : String) (hf : f ∈ fns) :
    dfLookup ⟨fields.filter fun kv => decide (kv.1 ∈ fns), ts⟩ f
      = dfLookup ⟨fields, ts⟩ f := by
  have hfld : lookupList (fields.filter fun kv => decide (kv.1 ∈ fns)) f
      = lookupList fields f :=
    lookupList_filter fields (fun x => decide (x ∈ fns)) f (decide_eq_true hf)
  cases ts with
  | none => simpa [dfLookup] using hfld
  | some t =>
    simp only [dfLookup]
    rw [hfld]

/-- C3 amended: reconciliation yields exactly the contract's names in the
contract's order (hence the contract's length); a contract name absent
from the payload frame is filled with its pattern default, where the
derived-feature patterns (`roll`/`diff`/`pct_change` → 0) take precedence
over the `temp`/`pressure`/`humidity` patterns; and payload fields outside
the contract are ignored (dropping them does not change the result). -/
theorem C3_reconciliation_amended (fns : List String) (p : Payload) :
    (prepare_features fns p).map Prod.fst = fns ∧
    (prepare_features fns p).length = fns.length ∧
    (∀ f ∈ fns, dfLookup p f = none →
      (f, pattern_default f) ∈ prepare_features fns p) ∧
    prepare_features fns { fields := p.fields.filter fun kv => decide (kv.1 ∈ fns),
                           timestamp := p.timestamp } = prepare_features fns p := by
  obtain ⟨fields, ts⟩ := p
  refine ⟨?_, ?_, ?_, ?_⟩
  · unfold prepare_features
    rw [List.map_map]
    exact List.map_id fns
  · simp [prepare_features]
  · intro f hf hnone
    refine List.mem_map.mpr ⟨f, hf, ?_⟩
    rw [hnone]
  · unfold prepare_features
    refine List.map_congr_left fun f hf => ?_
    rw [dfLookup_filter fields ts fns f hf]

/-- Witness for C3 amended: a pressure-like contract name missing from a
payload that also carries an extra field outside the contract. -/
theorem C3_reconciliation_amended_witness :
    ("pressure_gap", pattern_default "pressure_gap") ∈
      prepare_features ["rainfall_mm", "pressure_gap"]
        ⟨[("rainfall_mm", some 5), ("junk", some 9)], none⟩ :=
  (C3_reconciliation_amended ["rainfall_mm", "pressure_gap"]
      ⟨[("rainfall_mm", some 5), ("junk", some 9)], none⟩).2.2.1
    "pressure_gap" (by decide) (by decide)

/-! ## `predict_proba` / `predict_batch` (src/backend/services/predict.py)

The statistical model is opaque: it exposes a single-row probability and a
batch probability.  The claims' reading that the model applies row-wise is
the hypothesis `predictBatch rows = rows.map predictOne`. -/

structure Model where
  predictOne : List ℚ → ℚ
  predictBatch : List (List ℚ) → List ℚ

/-- Row lookup by column label, used when a batch frame re-selects the
contract's columns (`batch_df[feature_names]`). -/
def reselect (fns : List String) (row : List (String × ℚ)) : List (String × ℚ) :=
  fns.map fun f => (f, (lookupList row f).getD 0)

/-- The computation `predict_proba` performs once the model and contract
are loaded: prepare the payload's features and take the positive-class
probability of the single row. -/
def predict_proba_loaded (m : Model) (fns : List String) (p : Payload) : ℚ :=
  m.predictOne ((prepare_features fns p).map Prod.snd)

/-- The computation `predict_batch` performs once the model and contract
are loaded: prepare every payload, stack the rows, re-select the contract
columns, `fillna(0)`, and predict the batch. -/
def predict_batch_loaded (m : Model) (fns : List String) (ps : List Payload) : List ℚ :=
  m.predictBatch (((ps.map (prepare_features fns)).map (reselect fns)).map
    (List.map Prod.snd))

theorem lookupList_map_self (l : List String) (g : String → ℚ) (f : String) :
    lookupList (l.map fun x => (x, g x)) f = if f ∈ l then some (g f) else none := by
  induction l with
  | nil => simp [lookupList]
  | cons x rest ih =>
    by_cases h : x = f
    · simp [lookupList, h]
    · simp [lookupList, h, ih, Ne.symm h]

theorem reselect_prepare (fns : List String) (p : Payload) :
    reselect fns (prepare_features fns p) = prepare_features fns p := by
  unfold reselect prepare_features
  refine List.map_congr_left fun f hf => ?_
  rw [lookupList_map_self fns _ f, if_pos hf]
  rfl

/-- C4: under the row-wise-model hypothesis, batch prediction equals the
element-wise single prediction, in the input order. -/
theorem C4_batch_single_equivalence (m : Model)
    (hrow : ∀ rows, m.predictBatch rows = rows.map m.predictOne)
    (fns : List String) (ps : List Payload) :
    predict_batch_loaded m fns ps = ps.map (predict_proba_loaded m fns) := by
  unfold predict_batch_loaded
  rw [hrow]
  simp only [List.map_map]
  refine List.map_congr_left fun p hp => ?_
  simp only [Function.comp]
  rw [reselect_prepare fns p]
  rfl

/-- Witness for C4: a concrete row-wise model over a two-payload batch. -/
theorem C4_batch_single_equivalence_witness :
    predict_batch_loaded ⟨List.sum, fun rows => rows.map List.sum⟩ ["rainfall_mm"]
        [⟨[("rainfall_mm", some 5)], none⟩, ⟨[], none⟩]
      = [⟨[("rainfall_mm", some 5)], none⟩, ⟨[], none⟩].map
          (predict_proba_loaded ⟨List.sum, fun rows => rows.map List.sum⟩ ["rainfall_mm"]) :=
  C4_batch_single_equivalence ⟨List.sum, fun rows => rows.map List.sum⟩
    (fun _ => rfl) ["rainfall_mm"] [⟨[("rainfall_mm", some 5)], none⟩, ⟨[], none⟩]

/-! ## `load_model` and the module-level cache (src/backend/services/predict.py)

The module holds `_model`, `_feature_names`, `_model_metadata` as global
state.  `load_model` returns the cached triple whenever `_model` is set;
otherwise it loads the three artifact files in sequence, assigning each
global as it goes, and converts any exception into `ModelNotFoundError`.
An artifact file is missing, corrupt (its load raises), or loads to a
value.  `predict_proba` converts any exception — including the
`ModelNotFoundError` from a failed load — into `PredictionError`. -/

inductive FileState (α : Type) where
  | missing
  | corrupt
  | ok (a : α)

abbrev Metadata := List (String × String)

structure Artifacts where
  modelFile : FileState Model
  featureNamesFile : FileState (List String)
  metadataFile : FileState Metadata

structure ModelCache where
  model : Option Model
  featureNames : Option (List String)
  metadata : Option Metadata

/-- The metadata step of `load_model`, entered with the model and feature
names already loaded and assigned to the globals. -/
def loadMetadataStep (a : Artifacts) (m : Model) (ns : List String) (c : ModelCache) :
    Except Unit (Model × Option (List String) × Option Metadata) × ModelCache :=
  match a.metadataFile with
  | .corrupt => (.error (), c)
  | .missing => (.ok (m, some ns, some []), { c with metadata := some [] })
  | .ok md => (.ok (m, some ns, some md), { c with metadata := some md })

/-- Source `load_model`: fast path on a set `_model`; otherwise sequential loads
with incremental global assignment; every failure surfaces as the
`ModelNotFoundError` condition (`Except.error`). -/
def load_model (a : Artifacts) (c : ModelCache) :
    Except Unit (Model × Option (List String) × Option Metadata) × ModelCache :=
  match c.model with
  | some m => (.ok (m, c.featureNames, c.metadata), c)
  | none =>
    match a.modelFile with
    | .missing => (.error (), c)
    | .corrupt => (.error (), c)
    | .ok m =>
      let c1 : ModelCache := { c with model := some m }
      match a.featureNamesFile with
      | .corrupt => (.error (), c1)
      | .missing => loadMetadataStep a m [] { c1 with featureNames := some [] }
      | .ok ns => loadMetadataStep a m ns { c1 with featureNames := some ns }

/-- The two exception classes a caller of the service can observe. -/
inductive PredictServiceError where
  | modelNotFound
  | predictionError
  deriving DecidableEq, Repr

/-- Source `predict_proba` with the module state: load (or reuse) the model, then
prepare features and predict; any exception in the body — a failed load,
or a `None` feature-name list reaching the feature loop — is re-raised as
`PredictionError`. -/
def predict_proba (a : Artifacts) (c : ModelCache) (p : Payload) :
    Except PredictServiceError ℚ × ModelCache :=
  match load_model a c with
  | (.error _, c2) => (.error .predictionError, c2)
  | (.ok (m, fnsOpt, _), c2) =>
    match fnsOpt with
    | none => (.error .predictionError, c2)
    | some fns => (.ok (predict_proba_loaded m fns p), c2)

/-- C5 counterexample: with the model artifact absent, `predict_proba`
raises `PredictionError` — the distinct `ModelNotFoundError` raised inside
`load_model` is swallowed by the blanket `except` and re-wrapped — so the
caller does not see the distinct "model unavailable" condition the claim
names. -/
theorem C5_error_kind_counterexample :
    (predict_proba ⟨.missing, .missing, .missing⟩ ⟨none, none, none⟩ ⟨[], none⟩).1
        = Except.error PredictServiceError.predictionError ∧
    Except.error (ε := PredictServiceError) (α := ℚ) PredictServiceError.predictionError
        ≠ Except.error PredictServiceError.modelNotFound := by
  refine ⟨rfl, fun h => ?_⟩
  injection h with h2
  exact PredictServiceError.noConfusion h2

/-- C5 amended: if the model artifact is absent or corrupt and nothing is
cached, every `predict_proba` call raises `PredictionError` (wrapping the
internal model-not-found condition) and leaves the cache untouched — so
every subsequent call fails the same way, and no call ever returns a
probability. -/
theorem C5_model_unavailable_amended (a : Artifacts) (c : ModelCache) (p : Payload)
    (hfile : a.modelFile = FileState.missing ∨ a.modelFile = FileState.corrupt)
    (hcache : c.model = none) :
    predict_proba a c p = (Except.error PredictServiceError.predictionError, c) := by
  obtain ⟨cm, cns, cmd⟩ := c
  simp only at hcache
  subst hcache
  rcases hfile with h | h <;> simp [predict_proba, load_model, h]

/-- Witness for C5 amended: concrete absent artifacts and an empty cache. -/
theorem C5_model_unavailable_amended_witness :
    predict_proba ⟨.missing, .missing, .missing⟩ ⟨none, none, none⟩ ⟨[], none⟩
      = (Except.error PredictServiceError.predictionError, ⟨none, none, none⟩) :=
  C5_model_unavailable_amended ⟨.missing, .missing, .missing⟩ ⟨none, none, none⟩
    ⟨[], none⟩ (Or.inl rfl) rfl

/-- A concrete opaque model artifact used in the cache scenarios. -/
def constModel : Model := ⟨fun _ => 1/2, fun rows => rows.map fun _ => 1/2⟩

/-- C8 counterexample: when the model file loads but the feature-names file
is corrupt, the first `load_model` call fails — yet has already assigned
the global `_model` — and the second call takes the fast path and returns
the half-updated pair: the model together with a `None` feature-name list.
So a failed load does change the cached state, and a later caller observes
a half-updated pair. -/
theorem C8_half_updated_cache_counterexample :
    (load_model ⟨.ok constModel, .corrupt, .missing⟩ ⟨none, none, none⟩).1
        = Except.error () ∧
    ((load_model ⟨.ok constModel, .corrupt, .missing⟩ ⟨none, none, none⟩).2).model.isSome
        = true ∧
    (load_model ⟨.ok constModel, .corrupt, .missing⟩
        (load_model ⟨.ok constModel, .corrupt, .missing⟩ ⟨none, none, none⟩).2).1
        = Except.ok (constModel, none, none) :=
  ⟨rfl, rfl, rfl⟩

/-- C8 amended: the caching is atomic only as far as the model-file load
itself: if the model file is missing or corrupt, the failing call leaves
the cache exactly as it was; when every artifact loads, the call caches
and returns the full pair; and a call that finds `_model` set returns the
cached triple unchanged.  (A failure after the model file has loaded,
however, caches the model alone — the counterexample.) -/
theorem C8_load_cache_amended :
    (∀ (a : Artifacts) (c : ModelCache), c.model = none →
      (a.modelFile = FileState.missing ∨ a.modelFile = FileState.corrupt) →
      load_model a c = (Except.error (), c)) ∧
    (∀ (a : Artifacts) (c : ModelCache) (m : Model) (ns : List String) (md : Metadata),
      c.model = none → a.modelFile = FileState.ok m →
      a.featureNamesFile = FileState.ok ns → a.metadataFile = FileState.ok md →
      load_model a c = (Except.ok (m, some ns, some md),
        { model := some m, featureNames := some ns, metadata := some md })) ∧
    (∀ (a : Artifacts) (c : ModelCache) (m : Model), c.model = some m →
      load_model a c = (Except.ok (m, c.featureNames, c.metadata), c)) := by
  refine ⟨?_, ?_, ?_⟩
  · intro a c hc hfile
    obtain ⟨cm, cns, cmd⟩ := c
    simp only at hc
    subst hc
    rcases hfile with h | h <;> simp [load_model, h]
  · intro a c m ns md hc h1 h2 h3
    obtain ⟨cm, cns, cmd⟩ := c
    simp only at hc
    subst hc
    simp [load_model, h1, h2, h3, loadMetadataStep]
  · intro a c m hc
    obtain ⟨cm, cns, cmd⟩ := c
    simp only at hc
    subst hc
    simp [load_model]

/-- Witness for C8 amended: a fully successful load caches the complete
pair, and an absent model file leaves the empty cache empty. -/
theorem C8_load_cache_amended_witness :
    load_model ⟨.ok constModel, .ok ["rainfall_mm"], .ok []⟩ ⟨none, none, none⟩
        = (Except.ok (constModel, some ["rainfall_mm"], some []),
           ⟨some constModel, some ["rainfall_mm"], some []⟩) ∧
    load_model ⟨.missing, .missing, .missing⟩ ⟨none, none, none⟩
        = (Except.error (), ⟨none, none, none⟩) :=
  ⟨C8_load_cache_amended.2.1 ⟨.ok constModel, .ok ["rainfall_mm"], .ok []⟩
      ⟨none, none, none⟩ constModel ["rainfall_mm"] [] rfl rfl rfl rfl,
   C8_load_cache_amended.1 ⟨.missing, .missing, .missing⟩ ⟨none, none, none⟩
      rfl (Or.inl rfl)⟩

/-! ## `pd.merge_asof(..., direction='nearest', tolerance=...)`
(src/ml/features.py, `load_sensor_csvs` and `build_tabular_features`)

A frame is a timestamp spine (integer minutes; pandas timestamps are
totally ordered instants) plus named value columns; a cell may be null.
pandas resolves `direction='nearest'` by combining a backward join and a
forward join, each already bounded by the tolerance: for a left stamp `t`,
the backward candidate is the last right row with stamp ≤ t within
tolerance, the forward candidate the first right row with stamp ≥ t within
tolerance, and when both exist the backward one is taken iff
`t - backward ≤ forward - t`.  Matching looks at timestamps only. -/

structure DF where
  cols : List String
  ts : List ℤ
  rows : List (List (Option ℚ))

def asofBackward (rts : List ℤ) (tol t : ℤ) : Option (ℕ × ℤ) :=
  (rts.enum.filter fun is => decide (is.2 ≤ t ∧ t - is.2 ≤ tol)).getLast?

def asofForward (rts : List ℤ) (tol t : ℤ) : Option (ℕ × ℤ) :=
  (rts.enum.filter fun is => decide (t ≤ is.2 ∧ is.2 - t ≤ tol)).head?

def asofNearest (rts : List ℤ) (tol t : ℤ) : Option (ℕ × ℤ) :=
  match asofBackward rts tol t, asofForward rts tol t with
  | none, none => none
  | some b, none => some b
  | none, some f => some f
  | some b, some f => if t - b.2 ≤ f.2 - t then some b else some f

/-- Pandas `pd.merge_asof(left, right, on='timestamp', direction='nearest',
tolerance=tol)`: every left row, extended with the matched right row's
value columns, or with nulls when no right row lies within tolerance. -/
def merge_asof (left right : DF) (tol : ℤ) : DF :=
  { cols := left.cols ++ right.cols
  , ts := left.ts
  , rows := (left.ts.zip left.rows).map fun tr =>
      tr.2 ++ match asofNearest right.ts tol tr.1 with
        | some bf => (right.rows.get? bf.1).getD (List.replicate right.cols.length none)
        | none => List.replicate right.cols.length none }

/-- C9 counterexample: a left row at t=1 sees right candidates at t=0
(null value) and t=2 (value 5), equidistant; the merge takes the earlier,
null one — the non-null candidate is not favored, contrary to the claim's
second clause. -/
theorem C9_null_preference_counterexample :
    (merge_asof ⟨["a"], [1], [[some 1]]⟩ ⟨["v"], [0, 2], [[none], [some 5]]⟩ 120).rows
        = [[some 1, none]] ∧
    (none : Option ℚ) ≠ some 5 := by
  exact ⟨rfl, by simp⟩

/-- C9 amended: in the nearest-match join, when backward and forward
candidates are equidistant from the target timestamp the tie is broken in
favor of the backward — earlier — candidate (its stamp is ≤ t ≤ the
forward stamp); null-ness of values plays no role, since matching reads
timestamps only. -/
theorem C9_tie_prefers_earlier_amended (rts : List ℤ) (tol t : ℤ) (b f : ℕ × ℤ)
    (hb : asofBackward rts tol t = some b) (hf : asofForward rts tol t = some f)
    (htie : t - b.2 = f.2 - t) :
    asofNearest rts tol t = some b ∧ b.2 ≤ t ∧ t ≤ f.2 := by
  refine ⟨?_, ?_, ?_⟩
  · unfold asofNearest
    rw [hb, hf]
    dsimp only
    rw [if_pos htie.le]
  · have hmem := List.mem_of_mem_getLast? hb
    have hp := (List.mem_filter.mp hmem).2
    exact (of_decide_eq_true hp).1
  · have hmem := List.mem_of_mem_head? hf
    have hp := (List.mem_filter.mp hmem).2
    exact (of_decide_eq_true hp).1

/-- Witness for C9 amended: the equidistant pair at stamps 0 and 2 around
t = 1. -/
theorem C9_tie_prefers_earlier_amended_witness :
    asofNearest [0, 2] 120 1 = some (0, 0) ∧ (0:ℤ) ≤ 1 ∧ (1:ℤ) ≤ 2 :=
  C9_tie_prefers_earlier_amended [0, 2] 120 1 (0, 0) (1, 2) rfl rfl rfl

/-! ## `build_tabular_features` (src/ml/features.py)

The merged frame is engineered, then rows keeping fewer than
`int(0.6 * len(df.columns))` non-null cells are dropped
(`df.dropna(thresh=...)`), then the surviving null cells are filled
forward, backward, and with zero, per column, in that order.  The
timestamp column counts as one always-non-null column, hence the `+ 1`
in the column count and in a row's non-null count.  Feature engineering
itself is kept opaque (a frame transformer); none of the claims here
depends on the derived columns' values.  `int(0.6 * n)` is embedded as
`6 * n / 10` (floor), which agrees with the float computation for the
frame widths involved. -/

def nonNullCount (r : List (Option ℚ)) : ℕ := (r.filter Option.isSome).length

/-- One pass of pandas `ffill` down a single column, carrying the last
seen value. -/
def colF (carry : Option ℚ) : List (Option ℚ) → List (Option ℚ)
  | [] => []
  | x :: xs =>
    match x with
    | some v => some v :: colF (some v) xs
    | none => carry :: colF carry xs

def col_ffill (c : List (Option ℚ)) : List (Option ℚ) := colF none c

/-- pandas `bfill` on a column: forward fill of the reversed column. -/
def col_bfill (c : List (Option ℚ)) : List (Option ℚ) := (colF none c.reverse).reverse

/-- pandas `fillna(0)` on a column. -/
def col_zfill (c : List (Option ℚ)) : List (Option ℚ) := c.map fun x => some (x.getD 0)

/-- The three-stage fill policy applied to one column, in the source's
order: forward, then backward, then zero. -/
def fillColumn (c : List (Option ℚ)) : List (Option ℚ) := col_zfill (col_bfill (col_ffill c))

/-- Column-wise fill of a row-major table. -/
def fillMissing (rows : List (List (Option ℚ))) : List (List (Option ℚ)) :=
  (rows.transpose.map fillColumn).transpose

/-- Python `int(0.6 * len(df.columns))`, the timestamp column included. -/
def dropThreshold (df : DF) : ℕ := 6 * (df.cols.length + 1) / 10

/-- The rows (with their stamps) surviving `dropna(thresh=...)`. -/
def keptPairs (df : DF) : List (ℤ × List (Option ℚ)) :=
  (df.ts.zip df.rows).filter fun tr => decide (dropThreshold df ≤ 1 + nonNullCount tr.2)

/-- The frame handed to the feature engineering step: the sensor frame
when the environmental frame is empty, the environmental frame when the
sensor frame is empty, and otherwise their nearest merge with the
30-minute tolerance. -/
def engineerInput (env sensor : DF) : DF :=
  if env.rows.isEmpty then sensor
  else if sensor.rows.isEmpty then env
  else merge_asof env sensor 30

def build_tabular_features (engineer : DF → DF) (env sensor : DF) : DF :=
  if env.rows.isEmpty && sensor.rows.isEmpty then ⟨[], [], []⟩
  else
    let df := engineer (engineerInput env sensor)
    { cols := df.cols
    , ts := (keptPairs df).map Prod.fst
    , rows := fillMissing ((keptPairs df).map Prod.snd) }

/-- Last non-null value of a column segment. -/
def lastSome (l : List (Option ℚ)) : Option ℚ := (l.filterMap id).getLast?

/-- First non-null value of a column segment. -/
def firstSome (l : List (Option ℚ)) : Option ℚ := (l.filterMap id).head?

/-- Last non-null value of a segment, falling back to a carried value. -/
def lastSomeD (carry : Option ℚ) (pre : List (Option ℚ)) : Option ℚ :=
  match lastSome pre with
  | some v => some v
  | none => carry

def carryUpdate (carry x : Option ℚ) : Option ℚ :=
  match x with
  | some v => some v
  | none => carry

/-- The value the three-stage fill policy must put at position `i` of
column `c`: the last non-null at or before `i`, else the first non-null
after `i`, else 0. -/
def ffbz (c : List (Option ℚ)) (i : ℕ) : ℚ :=
  match lastSome (c.take (i + 1)) with
  | some v => v
  | none =>
    match firstSome (c.drop (i + 1)) with
    | some v => v
    | none => 0

theorem colF_length (c : List (Option ℚ)) :
    ∀ carry, (colF carry c).length = c.length := by
  induction c with
  | nil => intro carry; rfl
  | cons x xs ih =>
    intro carry
    cases x <;> simp [colF, ih]

theorem getLast?_cons_getD (v : ℚ) (l : List ℚ) :
    (v :: l).getLast? = some (l.getLast?.getD v) := by
  cases l with
  | nil => rfl
  | cons y t =>
    rw [List.getLast?_cons_cons]
    have hs : (y :: t).getLast?.isSome = true := List.getLast?_isSome.mpr (by simp)
    obtain ⟨w, hw⟩ := Option.isSome_iff_exists.mp hs
    rw [hw]
    rfl

theorem lastSomeD_cons (carry x : Option ℚ) (pre : List (Option ℚ)) :
    lastSomeD carry (x :: pre) = lastSomeD (carryUpdate carry x) pre := by
  cases x with
  | none => simp [lastSomeD, lastSome, carryUpdate, List.filterMap_cons]
  | some v =>
    simp only [lastSomeD, lastSome, carryUpdate, List.filterMap_cons, id]
    rw [getLast?_cons_getD]
    cases h : (List.filterMap id pre).getLast? with
    | some w => simp [h]
    | none => simp [h]

theorem lastSomeD_none (pre : List (Option ℚ)) : lastSomeD none pre = lastSome pre := by
  unfold lastSomeD
  cases lastSome pre <;> rfl

theorem lastSome_reverse (l : List (Option ℚ)) : lastSome l.reverse = firstSome l := by
  unfold lastSome firstSome
  rw [List.filterMap_reverse, List.getLast?_reverse]

theorem firstSome_colF_none (c : List (Option ℚ)) :
    firstSome (colF none c) = firstSome c := by
  induction c with
  | nil => rfl
  | cons x xs ih =>
    cases x with
    | some v => simp [colF, firstSome, List.filterMap_cons]
    | none => simpa [colF, firstSome, List.filterMap_cons] using ih

theorem colF_drop_firstSome (c : List (Option ℚ)) :
    ∀ (carry : Option ℚ) (i : ℕ), i < c.length →
      firstSome ((colF carry c).drop i) =
        match lastSomeD carry (c.take (i + 1)) with
        | some v => some v
        | none => firstSome (c.drop (i + 1)) := by
  induction c with
  | nil => intro carry i h; simp at h
  | cons x xs ih =>
    intro carry i h
    cases i with
    | zero =>
      cases x with
      | some v => simp [colF, firstSome, List.filterMap_cons, lastSomeD, lastSome]
      | none =>
        cases carry with
        | some w => simp [colF, firstSome, List.filterMap_cons, lastSomeD, lastSome]
        | none =>
          simp only [colF, List.drop_zero, List.take_succ_cons, List.take_zero,
            lastSomeD, lastSome, List.filterMap_cons, id, List.filterMap_nil,
            List.getLast?_nil, List.drop_succ_cons, List.drop_zero]
          rw [show firstSome (none :: colF none xs) = firstSome (colF none xs) by
            simp [firstSome, List.filterMap_cons]]
          exact firstSome_colF_none xs
    | succ j =>
      have hj : j < xs.length := by simpa using h
      cases x with
      | some v =>
        show firstSome ((colF (some v) xs).drop j) = _
        rw [ih (some v) j hj, List.take_succ_cons, lastSomeD_cons]
        rfl
      | none =>
        show firstSome ((colF carry xs).drop j) = _
        rw [ih carry j hj, List.take_succ_cons, lastSomeD_cons]
        rfl

theorem colF_getElem (c : List (Option ℚ)) :
    ∀ (carry : Option ℚ) (i : ℕ), i < c.length →
      (colF carry c)[i]? = some (lastSomeD carry (c.take (i + 1))) := by
  induction c with
  | nil => intro carry i h; simp at h
  | cons x xs ih =>
    intro carry i h
    cases i with
    | zero =>
      cases x with
      | some v => simp [colF, lastSomeD, lastSome, List.filterMap_cons]
      | none => simp [colF, lastSomeD, lastSome, List.filterMap_cons]
    | succ j =>
      have hj : j < xs.length := by simpa using h
      cases x with
      | some v =>
        simp only [colF]
        rw [List.getElem?_cons_succ, ih (some v) j hj, List.take_succ_cons, lastSomeD_cons]
        rfl
      | none =>
        simp only [colF]
        rw [List.getElem?_cons_succ, ih carry j hj, List.take_succ_cons, lastSomeD_cons]
        rfl

theorem col_bfill_getElem (f : List (Option ℚ)) (i : ℕ) (h : i < f.length) :
    (col_bfill f)[i]? = some (firstSome (f.drop i)) := by
  unfold col_bfill
  have hlen : (colF none f.reverse).length = f.length := by
    rw [colF_length, List.length_reverse]
  have hi : i < (colF none f.reverse).length := by rw [hlen]; exact h
  rw [List.getElem?_reverse hi, hlen]
  have hj : f.length - 1 - i < f.reverse.length := by
    rw [List.length_reverse]; omega
  have hget := colF_getElem f.reverse none (f.length - 1 - i)
      (by rw [List.length_reverse]; omega)
  rw [hget]
  rw [lastSomeD_none]
  have harith : f.length - 1 - i + 1 = f.length - i := by omega
  rw [harith]
  have htake : f.reverse.take (f.length - i) = (f.drop i).reverse := by
    rw [List.take_reverse]
    congr 1
    congr 1
    omega
  rw [htake, lastSome_reverse]

theorem fillColumn_getElem (c : List (Option ℚ)) (i : ℕ) (h : i < c.length) :
    (fillColumn c)[i]? = some (some (ffbz c i)) := by
  unfold fillColumn col_zfill
  rw [List.getElem?_map]
  have hflen : (col_ffill c).length = c.length := colF_length c none
  rw [col_bfill_getElem (col_ffill c) i (by rw [hflen]; exact h)]
  simp only [Option.map_some']
  unfold col_ffill
  rw [colF_drop_firstSome c none i h]
  unfold ffbz
  rw [lastSomeD_none]
  cases hx : lastSome (c.take (i + 1)) with
  | some v => rfl
  | none =>
    cases hy : firstSome (c.drop (i + 1)) with
    | some v => rfl
    | none => rfl

/-- C6 counterexample: (i) with an empty environmental frame, a sensor row
with only 2 of its 5 columns (timestamp included) populated — 40% — is
passed verbatim as the FeatureEngineer's input, so it does reach feature
engineering, which in `build_tabular_features` runs before the drop; and
(ii) on a 7-column frame the drop threshold is `int(0.6*7) = 4`, so a row
with 4 of 7 (≈57%, fewer than 60%) non-null columns survives the drop. -/
theorem C6_stage_order_counterexample :
    engineerInput ⟨[], [], []⟩ ⟨["a", "b", "c", "d"], [0], [[some 1, none, none, none]]⟩
        = ⟨["a", "b", "c", "d"], [0], [[some 1, none, none, none]]⟩ ∧
    5 * (1 + nonNullCount [some 1, none, none, none]) < 3 * (4 + 1) ∧
    keptPairs ⟨["a", "b", "c", "d", "e", "f"], [0],
        [[some 1, some 2, some 3, none, none, none]]⟩
        = [(0, [some 1, some 2, some 3, none, none, none])] ∧
    5 * (1 + nonNullCount [some 1, some 2, some 3, none, none, none]) < 3 * (6 + 1) := by
  exact ⟨rfl, by decide, by decide, by decide⟩

/-- C6 amended: in `build_tabular_features` the sparse-row drop runs after
feature engineering, not before, with threshold `int(0.6 * ncols)` over
the engineered frame's column count (timestamp included): every kept row
has at least that many non-null cells, every row with fewer is dropped,
and each remaining null cell of a kept column is filled forward, then
backward, then with zero, in that strict order — position `i` receives
the last non-null value at or before `i`, else the first non-null value
after `i`, else 0. -/
theorem C6_drop_and_fill_amended :
    (∀ (engineer : DF → DF) (env sensor : DF),
      (env.rows.isEmpty && sensor.rows.isEmpty) = false →
      build_tabular_features engineer env sensor =
        { cols := (engineer (engineerInput env sensor)).cols
        , ts := (keptPairs (engineer (engineerInput env sensor))).map Prod.fst
        , rows := fillMissing
            ((keptPairs (engineer (engineerInput env sensor))).map Prod.snd) }) ∧
    (∀ (df : DF), ∀ tr ∈ keptPairs df, dropThreshold df ≤ 1 + nonNullCount tr.2) ∧
    (∀ (df : DF) (tr : ℤ × List (Option ℚ)),
      1 + nonNullCount tr.2 < dropThreshold df → tr ∉ keptPairs df) ∧
    (∀ (c : List (Option ℚ)) (i : ℕ), i < c.length →
      (fillColumn c)[i]? = some (some (ffbz c i))) := by
  refine ⟨?_, ?_, ?_, ?_⟩
  · intro engineer env sensor hne
    unfold build_tabular_features
    rw [hne]
    simp
  · intro df tr htr
    exact of_decide_eq_true (List.mem_filter.mp htr).2
  · intro df tr hlt hmem
    have hle := of_decide_eq_true (List.mem_filter.mp hmem).2
    omega
  · exact fillColumn_getElem

/-- Witness for C6 amended: the 4-of-7 row passes the drop threshold, and
a column whose first cell is null gets that cell backward-filled from the
value below it. -/
theorem C6_drop_and_fill_amended_witness :
    dropThreshold ⟨["a", "b", "c", "d", "e", "f"], [0],
        [[some 1, some 2, some 3, none, none, none]]⟩
      ≤ 1 + nonNullCount [some 1, some 2, some 3, none, none, none] ∧
    (fillColumn [none, some 3, none])[0]? = some (some (ffbz [none, some 3, none] 0)) :=
  ⟨C6_drop_and_fill_amended.2.1
      ⟨["a", "b", "c", "d", "e", "f"], [0], [[some 1, some 2, some 3, none, none, none]]⟩
      (0, [some 1, some 2, some 3, none, none, none]) (by decide),
   C6_drop_and_fill_amended.2.2.2 [none, some 3, none] 0 (by decide)⟩
